import Mathlib

/-!
# Verification of MetaMask/native-utils key-derivation and address engine

Shallow embedding of the repository's native key-derivation, public-key
sanitization, hashing and address-derivation code, together with the
TypeScript input-normalization helpers, and proofs about the embedded
functions.

Byte buffers are modelled as `List Nat` (each element a byte value).
The external libsecp256k1 point arithmetic is modelled by an abstract
`CurveLib` record carrying the opaque point data; its documented contract
(which inputs succeed, recognized encodings) is reflected where the
repository's own control flow depends on it.  Keccak-256 is implemented
concretely (Ethereum padding, rate 1088), so digest computations evaluate
inside Lean.
-/

/-! ## Byte-level helpers -/

/-- Truncate or zero-pad a byte list to exactly `n` bytes, mirroring a fixed
size native buffer that the callee writes into (unwritten bytes modelled as
zero). -/
def padTo (n : Nat) (l : List Nat) : List Nat :=
  l.take n ++ List.replicate (n - (l.take n).length) 0

theorem padTo_length (n : Nat) (l : List Nat) : (padTo n l).length = n := by
  simp [padTo]

/-- Big-endian bytes of `n`, fixed width `k` (the TypeScript
`for (i = 31; i >= 0; i--) bytes[i] = n & 0xff; n >>= 8` loop). -/
def natToBEBytes : Nat → Nat → List Nat
  | 0, _ => []
  | k + 1, n => natToBEBytes k (n / 256) ++ [n % 256]

/-- Little-endian bytes of `n`, fixed width `k` (lane extraction). -/
def natToLEBytes : Nat → Nat → List Nat
  | 0, _ => []
  | k + 1, n => n % 256 :: natToLEBytes k (n / 256)

/-- Interpret a byte list as a big-endian natural number. -/
def beToNat (l : List Nat) : Nat :=
  l.foldl (fun acc b => acc * 256 + b) 0

/-- Interpret a byte list as a little-endian natural number (Keccak lane
loading). -/
def leToNat (l : List Nat) : Nat :=
  l.foldr (fun b acc => b + 256 * acc) 0

theorem natToBEBytes_length (k n : Nat) : (natToBEBytes k n).length = k := by
  induction k generalizing n with
  | zero => rfl
  | succ k ih => simp [natToBEBytes, ih]

theorem natToLEBytes_length (k n : Nat) : (natToLEBytes k n).length = k := by
  induction k generalizing n with
  | zero => rfl
  | succ k ih => simp [natToLEBytes, ih]

theorem beToNat_append_singleton (l : List Nat) (b : Nat) :
    beToNat (l ++ [b]) = 256 * beToNat l + b := by
  simp [beToNat, List.foldl_append, Nat.mul_comm]

theorem beToNat_natToBEBytes (k n : Nat) :
    beToNat (natToBEBytes k n) = n % 2 ^ (8 * k) := by
  induction k generalizing n with
  | zero => simp [natToBEBytes, beToNat, Nat.mod_one]
  | succ k ih =>
    rw [natToBEBytes, beToNat_append_singleton, ih]
    have h8 : 8 * (k + 1) = 8 + 8 * k := by ring
    rw [h8, pow_add]
    have h256 : (2 : Nat) ^ 8 = 256 := by norm_num
    rw [h256, Nat.mod_mul]
    ring

/-! ## Keccak-256 (Ethereum variant: multi-rate padding with 0x01 domain)

Concrete implementation of Keccak-f[1600] and the sponge with rate 136
bytes, as computed by the vendored keccak-tiny `sha3_256` (which, as the
source comments note, uses the Keccak 0x01 padding, not the FIPS SHA3 0x06
padding) and by Botan's `Keccak-1600(256)`. -/

/-- 64-bit left rotation (values kept below `2 ^ 64`). -/
def rotl64 (x n : Nat) : Nat :=
  ((x <<< n) ||| (x >>> (64 - n))) % (2 ^ 64)

/-- One step of the degree-8 LFSR generating the ι round-constant bits
(polynomial x^8 + x^6 + x^5 + x^4 + 1). -/
def keccakLFSR (r : Nat) : Nat :=
  if r &&& 0x80 ≠ 0 then ((r <<< 1) ^^^ 0x71) &&& 0xFF else (r <<< 1) &&& 0xFF

/-- One round constant from the current LFSR state: bit `2^j - 1` of the
constant is the LFSR output at sub-step `j`; returns the constant and the
advanced state. -/
def keccakRCStep (r : Nat) : Nat × Nat :=
  (List.range 7).foldl
    (fun acc j =>
      let rc := if acc.2 % 2 = 1 then acc.1 ||| (1 <<< (2 ^ j - 1)) else acc.1
      (rc, keccakLFSR acc.2))
    (0, r)

def keccakRCAux : Nat → Nat → List Nat
  | 0, _ => []
  | k + 1, r => (keccakRCStep r).1 :: keccakRCAux k (keccakRCStep r).2

/-- The 24 Keccak round constants, generated from the LFSR seeded with 1. -/
def keccakRC : List Nat :=
  keccakRCAux 24 1

/-- Fill the ρ rotation-offset table: step `t` writes offset
`(t+1)(t+2)/2 mod 64` at lane `(x, y)` and moves to `(y, 2x+3y mod 5)`,
starting from `(1, 0)`; lane `(0, 0)` keeps offset 0. -/
def keccakRhoAux : Nat → Nat → Nat → Nat → List Nat → List Nat
  | 0, _, _, _, acc => acc
  | k + 1, t, x, y, acc =>
    keccakRhoAux k (t + 1) y ((2 * x + 3 * y) % 5)
      (acc.set (x + 5 * y) ((t + 1) * (t + 2) / 2 % 64))

/-- Rotation offsets, indexed by lane position `x + 5 * y`. -/
def keccakRho : List Nat :=
  keccakRhoAux 24 0 1 0 (List.replicate 25 0)

/-- θ step. -/
def keccakTheta (a : List Nat) : List Nat :=
  let c := (List.range 5).map fun x =>
    a.getD x 0 ^^^ a.getD (x + 5) 0 ^^^ a.getD (x + 10) 0 ^^^
      a.getD (x + 15) 0 ^^^ a.getD (x + 20) 0
  let d := (List.range 5).map fun x =>
    c.getD ((x + 4) % 5) 0 ^^^ rotl64 (c.getD ((x + 1) % 5) 0) 1
  (List.range 25).map fun i => a.getD i 0 ^^^ d.getD (i % 5) 0

/-- Combined ρ and π steps: output lane `u + 5v` is the rotated source lane
`((u + 3v) mod 5) + 5u`. -/
def keccakRhoPi (a : List Nat) : List Nat :=
  (List.range 25).map fun j =>
    let u := j % 5
    let v := j / 5
    let src := (u + 3 * v) % 5 + 5 * u
    rotl64 (a.getD src 0) (keccakRho.getD src 0)

/-- χ step. -/
def keccakChi (b : List Nat) : List Nat :=
  (List.range 25).map fun j =>
    let x := j % 5
    let y := j / 5
    b.getD j 0 ^^^
      ((b.getD ((x + 1) % 5 + 5 * y) 0 ^^^ 0xFFFFFFFFFFFFFFFF) &&&
        b.getD ((x + 2) % 5 + 5 * y) 0)

/-- ι step. -/
def keccakIota (rc : Nat) (a : List Nat) : List Nat :=
  a.set 0 (a.getD 0 0 ^^^ rc)

/-- The Keccak-f[1600] permutation (24 rounds). -/
def keccakF (st : List Nat) : List Nat :=
  keccakRC.foldl (fun s rc => keccakIota rc (keccakChi (keccakRhoPi (keccakTheta s)))) st

/-- XOR a 136-byte block into the first 17 lanes of the state. -/
def keccakAbsorbBlock (st block : List Nat) : List Nat :=
  (List.range 25).map fun j =>
    if j < 17 then st.getD j 0 ^^^ leToNat ((block.drop (8 * j)).take 8)
    else st.getD j 0

/-- Keccak multi-rate padding with domain byte 0x01 (Ethereum Keccak-256,
not the FIPS SHA3 0x06 domain). -/
def keccakPad (msg : List Nat) : List Nat :=
  let q := 136 - msg.length % 136
  if q = 1 then msg ++ [0x81]
  else msg ++ [0x01] ++ List.replicate (q - 2) 0 ++ [0x80]

/-- Absorb `k` rate-sized blocks. -/
def keccakAbsorb : Nat → List Nat → List Nat → List Nat
  | 0, st, _ => st
  | k + 1, st, msg =>
    keccakAbsorb k (keccakF (keccakAbsorbBlock st (msg.take 136))) (msg.drop 136)

/-- First 32 bytes of the state (lanes 0..3, little-endian). -/
def keccakSqueeze (st : List Nat) : List Nat :=
  natToLEBytes 8 (st.getD 0 0) ++ natToLEBytes 8 (st.getD 1 0) ++
  natToLEBytes 8 (st.getD 2 0) ++ natToLEBytes 8 (st.getD 3 0)

/-- Keccak-256 of a byte list. -/
def keccak256 (msg : List Nat) : List Nat :=
  let padded := keccakPad msg
  keccakSqueeze (keccakAbsorb (padded.length / 136) (List.replicate 25 0) padded)

theorem keccak256_length (msg : List Nat) : (keccak256 msg).length = 32 := by
  simp [keccak256, keccakSqueeze, natToLEBytes_length]

/-! ## Error model and result type

One constructor per distinct error condition in the source (several Nitro
throw sites share a message string; `Err.message` records the exact C++ /
TypeScript text thrown at each site). -/

inductive Err where
  | hexOddLength          -- "Invalid hex string: odd length"
  | hexInvalidChar        -- "Invalid hex string: contains non-hex characters"
  | hexLengthMismatch     -- "Invalid hex string length"
  | privKeyHexLen64       -- "Private key must be 64 hex characters (32 bytes)"
  | privKeyBytesLen32     -- "Private key must be 32 bytes"
  | privateKeyInvalid     -- "Private key is invalid" (libsecp256k1 seckey check)
  | zeroScalar            -- zero-scalar rejection
  | scalarOutOfRange      -- scalar >= N rejection
  | negativeScalar        -- "Private key must be positive"
  | pubkeyCreateFailed    -- pubkey_create returned failure
  | serializeFailed       -- pubkey_serialize returned failure
  | serializationLengthMismatch -- "Unexpected public key length from secp256k1"
  | invalidPublicKeyFormat -- "Invalid public key format"
  | expectedLength64      -- "Expected pubKey to be of length 64"
  | ed25519HexLen         -- "Ed25519 private key must be 32 bytes (64 hex characters)"
  | ed25519BytesLen       -- "Ed25519 private key must be 32 bytes"
  | invalidByteValue      -- "Invalid byte value at index ..."
deriving DecidableEq

/-- The message text thrown for each error condition in the NativeUtils
revision (the NitroSecp256k1 revision throws "private key invalid 3" for all
of `zeroScalar`, `scalarOutOfRange`, `pubkeyCreateFailed`, `serializeFailed`,
and "hex invalid" for both hex errors). -/
def Err.message : Err → String
  | .hexOddLength => "Invalid hex string: odd length"
  | .hexInvalidChar => "Invalid hex string: contains non-hex characters"
  | .hexLengthMismatch => "Invalid hex string length"
  | .privKeyHexLen64 => "Private key must be 64 hex characters (32 bytes)"
  | .privKeyBytesLen32 => "Private key must be 32 bytes"
  | .privateKeyInvalid => "Private key is invalid"
  | .zeroScalar => "Private key cannot be zero"
  | .scalarOutOfRange => "Private key must be less than the secp256k1 curve order"
  | .negativeScalar => "Private key must be positive"
  | .pubkeyCreateFailed => "Failed to create public key from private key"
  | .serializeFailed => "Failed to serialize public key"
  | .serializationLengthMismatch => "Unexpected public key length from secp256k1"
  | .invalidPublicKeyFormat => "Invalid public key format"
  | .expectedLength64 => "Expected pubKey to be of length 64"
  | .ed25519HexLen => "Ed25519 private key must be 32 bytes (64 hex characters)"
  | .ed25519BytesLen => "Ed25519 private key must be 32 bytes"
  | .invalidByteValue => "Invalid byte value at index"

/-- Call outcome: a returned buffer/value or a thrown error. -/
inductive Res (α : Type) where
  | ok : α → Res α
  | err : Err → Res α
deriving DecidableEq

def Res.isOk {α : Type} : Res α → Bool
  | .ok _ => true
  | .err _ => false

/-! ## Hex utilities (src/cpp/hex_utils.cpp, identical logic in
HybridNitroSecp256k1.cpp) -/

/-- `isValidHexChar` from hex_utils.cpp. -/
def isValidHexChar (c : Char) : Bool :=
  (decide ('0' ≤ c) && decide (c ≤ '9')) ||
  (decide ('A' ≤ c) && decide (c ≤ 'F')) ||
  (decide ('a' ≤ c) && decide (c ≤ 'f'))

/-- `validateHexString` from hex_utils.cpp: odd length and non-hex characters
are rejected; nothing (in particular no 0x prefix) is stripped. -/
def validateHexString (s : List Char) : Res Unit :=
  if s.length % 2 ≠ 0 then .err .hexOddLength
  else if s.all isValidHexChar then .ok () else .err .hexInvalidChar

/-- `hexCharToByte` from hex_utils.cpp.  The fallthrough value 0 is
unreachable at call sites because `validateHexString` runs first. -/
def hexCharToByte (c : Char) : Nat :=
  if '0' ≤ c ∧ c ≤ '9' then c.toNat - '0'.toNat
  else if 'A' ≤ c ∧ c ≤ 'F' then c.toNat - 'A'.toNat + 10
  else if 'a' ≤ c ∧ c ≤ 'f' then c.toNat - 'a'.toNat + 10
  else 0

/-- The pairwise decode loop of `hexToBytes`. -/
def hexDecodeChars : List Char → List Nat
  | [] => []
  | [_] => []
  | c1 :: c2 :: rest => (16 * hexCharToByte c1 + hexCharToByte c2) :: hexDecodeChars rest

/-- `hexToBytes` from hex_utils.cpp: validate, check decoded length against
`expectedLen`, then decode. -/
def hexToBytes (s : List Char) (expectedLen : Nat) : Res (List Nat) :=
  match validateHexString s with
  | .err e => .err e
  | .ok _ =>
    if s.length ≠ expectedLen * 2 then .err .hexLengthMismatch
    else .ok (hexDecodeChars s)

/-! ## The external secp256k1 library

Point data is opaque: `CurveLib` carries it abstractly.  Success and
failure of the library calls, where the repository's control flow depends
on them, follow the documented libsecp256k1 contract:
`secp256k1_ec_pubkey_create` succeeds exactly on scalars in `[1, N)`, and
`secp256k1_ec_pubkey_parse` recognizes only the 33- and 65-byte SEC1
encodings. The byte output of `secp256k1_ec_pubkey_serialize` is left fully
abstract (an `Option`), since the repository's own defensive checks are
about not trusting it. -/

/-- The secp256k1 group order N, as in `SECP256K1_N` / `utils.ts`. -/
def Nsec : Nat :=
  0xfffffffffffffffffffffffffffffffebaaedce6af48a03bbfd25e8cd0364141

/-- The 32-byte big-endian constant `SECP256K1_N` from
HybridNitroSecp256k1.cpp. -/
def SECP256K1_N : List Nat :=
  [0xFF, 0xFF, 0xFF, 0xFF, 0xFF, 0xFF, 0xFF, 0xFF,
   0xFF, 0xFF, 0xFF, 0xFF, 0xFF, 0xFF, 0xFF, 0xFE,
   0xBA, 0xAE, 0xDC, 0xE6, 0xAF, 0x48, 0xA0, 0x3B,
   0xBF, 0xD2, 0x5E, 0x8C, 0xD0, 0x36, 0x41, 0x41]

theorem SECP256K1_N_value : beToNat SECP256K1_N = Nsec := by decide

/-- Opaque point handle (`secp256k1_pubkey`): the library's internal data. -/
structure Secp256k1Pubkey where
  data : List Nat
deriving DecidableEq

/-- Abstract interface of the external libsecp256k1 functions whose outputs
this repository consumes. -/
structure CurveLib where
  /-- The point derived for a valid scalar (`secp256k1_ec_pubkey_create`
  output data). -/
  pointOf : List Nat → Secp256k1Pubkey
  /-- `secp256k1_ec_pubkey_serialize`: the bytes written for a point in the
  requested form (`true` = compressed), or `none` on failure.  Deliberately
  unconstrained: the repository must not trust its length. -/
  serialize : Secp256k1Pubkey → Bool → Option (List Nat)
  /-- `secp256k1_ec_pubkey_parse` on a 33- or 65-byte input: the parsed
  point, or `none` for an invalid encoding. -/
  parseValid : List Nat → Option Secp256k1Pubkey

/-- Modelled from the libsecp256k1 contract: `secp256k1_ec_seckey_verify`
accepts exactly the scalars in `[1, N)` (big-endian 32-byte value). -/
def seckeyVerify (sk : List Nat) : Bool :=
  decide (1 ≤ beToNat sk ∧ beToNat sk < Nsec)

/-- Modelled from the libsecp256k1 contract: `secp256k1_ec_pubkey_create`
succeeds exactly on valid scalars. -/
def secpCreate (lib : CurveLib) (sk : List Nat) : Option Secp256k1Pubkey :=
  if seckeyVerify sk then some (lib.pointOf sk) else none

/-- Modelled from the libsecp256k1 contract: `secp256k1_ec_pubkey_parse`
recognizes only 33- and 65-byte SEC1 encodings; validity of those is the
abstract `parseValid`. -/
def secpParse (lib : CurveLib) (b : List Nat) : Option Secp256k1Pubkey :=
  if b.length = 33 ∨ b.length = 65 then lib.parseValid b else none

/-! ## HybridNativeUtils.cpp (the NativeUtils revision) -/

/-- `serializeSecp256k1PubkeyChecked`: wrap the library serialize call and
enforce that the number of bytes actually written equals the requested
form's expected length. -/
def NativeUtils.serializeSecp256k1PubkeyChecked (lib : CurveLib)
    (pk : Secp256k1Pubkey) (expectedLen : Nat) (compressed : Bool) :
    Res (List Nat) :=
  match lib.serialize pk compressed with
  | none => .err .serializeFailed
  | some out =>
    if out.length ≠ expectedLen then .err .serializationLengthMismatch
    else .ok out

/-- `generatePublicKeyFromBytes` (NativeUtils revision): libsecp256k1 scalar
check, point creation, length-checked serialization. -/
def NativeUtils.generatePublicKeyFromBytes (lib : CurveLib)
    (privateKeyBytes : List Nat) (isCompressed : Bool) : Res (List Nat) :=
  if seckeyVerify privateKeyBytes = false then .err .privateKeyInvalid
  else
    match secpCreate lib privateKeyBytes with
    | none => .err .pubkeyCreateFailed
    | some pubkey =>
      let keySize := if isCompressed then 33 else 65
      NativeUtils.serializeSecp256k1PubkeyChecked lib pubkey keySize isCompressed

/-- `toPublicKey` (NativeUtils revision): hex-string entry point. -/
def NativeUtils.toPublicKey (lib : CurveLib) (privateKey : List Char)
    (isCompressed : Bool) : Res (List Nat) :=
  if privateKey.length ≠ 64 then .err .privKeyHexLen64
  else
    match hexToBytes privateKey 32 with
    | .err e => .err e
    | .ok bytes => NativeUtils.generatePublicKeyFromBytes lib bytes isCompressed

/-- `toPublicKeyFromBytes` (NativeUtils revision). -/
def NativeUtils.toPublicKeyFromBytes (lib : CurveLib) (privateKey : List Nat)
    (isCompressed : Bool) : Res (List Nat) :=
  if privateKey.length ≠ 32 then .err .privKeyBytesLen32
  else NativeUtils.generatePublicKeyFromBytes lib privateKey isCompressed

/-- `keccak256FromBytes` (NativeUtils revision, via Botan Keccak-1600(256)). -/
def NativeUtils.keccak256FromBytes (data : List Nat) : List Nat :=
  keccak256 data

/-- `pubToAddress` (NativeUtils revision): sanitize via parse + checked
uncompressed re-serialization + prefix strip, else require raw 64 bytes;
then return the last 20 bytes of the Keccak-256 digest. -/
def NativeUtils.pubToAddress (lib : CurveLib) (pubKey : List Nat)
    (sanitize : Bool) : Res (List Nat) :=
  let raw : Res (List Nat) :=
    if sanitize = true ∧ pubKey.length ≠ 64 then
      match secpParse lib pubKey with
      | none => .err .invalidPublicKeyFormat
      | some parsedPubkey =>
        match NativeUtils.serializeSecp256k1PubkeyChecked lib parsedPubkey 65 false with
        | .err e => .err e
        | .ok uncompressedKey => .ok (uncompressedKey.drop 1)
    else if pubKey.length ≠ 64 then .err .expectedLength64
    else .ok pubKey
  match raw with
  | .err e => .err e
  | .ok bytes => .ok ((keccak256 bytes).drop 12)

/-- `generateEd25519PublicKeyFromBytes` (NativeUtils revision): the external
Botan `ed25519_gen_keypair` writes the public key into a fresh 32-byte
buffer; the keypair call itself never fails. `ed` is the abstract Botan
output. -/
def NativeUtils.generateEd25519PublicKeyFromBytes (ed : List Nat → List Nat)
    (privateKeyBytes : List Nat) : List Nat :=
  padTo 32 (ed privateKeyBytes)

/-! ## HybridNitroSecp256k1.cpp (the NitroSecp256k1 revision) -/

/-- `bytes32_gte` from HybridNitroSecp256k1.cpp: big-endian lexicographic
comparison, true when `a >= b`. -/
def NitroSecp256k1.bytes32_gte : List Nat → List Nat → Bool
  | a :: as, b :: bs =>
    if b < a then true else if a < b then false else NitroSecp256k1.bytes32_gte as bs
  | _, _ => true

/-- `bytes32_is_zero` from HybridNitroSecp256k1.cpp. -/
def NitroSecp256k1.bytes32_is_zero (bytes : List Nat) : Bool :=
  bytes.all fun b => b == 0

/-- `validatePrivateKeyScalar` from HybridNitroSecp256k1.cpp: reject the
all-zero scalar, then any scalar `>= N`.  Both throw sites use the message
"private key invalid 3"; the two error kinds record which check fired. -/
def NitroSecp256k1.validatePrivateKeyScalar (privateKeyBytes : List Nat) :
    Res Unit :=
  if NitroSecp256k1.bytes32_is_zero privateKeyBytes then .err .zeroScalar
  else if NitroSecp256k1.bytes32_gte privateKeyBytes SECP256K1_N then
    .err .scalarOutOfRange
  else .ok ()

/-- `generatePublicKeyFromBytes` (NitroSecp256k1 revision): own scalar
validation first, then point creation and serialization.  The returned
buffer always has the requested `keySize`; the byte count the library
reported as written is NOT compared against it (contrast with
`NativeUtils.serializeSecp256k1PubkeyChecked`). -/
def NitroSecp256k1.generatePublicKeyFromBytes (lib : CurveLib)
    (privateKeyBytes : List Nat) (isCompressed : Bool) : Res (List Nat) :=
  match NitroSecp256k1.validatePrivateKeyScalar privateKeyBytes with
  | .err e => .err e
  | .ok _ =>
    match secpCreate lib privateKeyBytes with
    | none => .err .pubkeyCreateFailed
    | some pubkey =>
      let keySize := if isCompressed then 33 else 65
      match lib.serialize pubkey isCompressed with
      | none => .err .serializeFailed
      | some out => .ok (padTo keySize out)

/-- `pubToAddress` (NitroSecp256k1 revision): same shape as the NativeUtils
one but with the unchecked serialize call (the 65-byte stack buffer is
modelled by `padTo 65`). -/
def NitroSecp256k1.pubToAddress (lib : CurveLib) (pubKey : List Nat)
    (sanitize : Bool) : Res (List Nat) :=
  let raw : Res (List Nat) :=
    if sanitize = true ∧ pubKey.length ≠ 64 then
      match secpParse lib pubKey with
      | none => .err .invalidPublicKeyFormat
      | some parsedPubkey =>
        match lib.serialize parsedPubkey false with
        | none => .err .serializeFailed
        | some out => .ok ((padTo 65 out).drop 1)
    else if pubKey.length ≠ 64 then .err .expectedLength64
    else .ok pubKey
  match raw with
  | .err e => .err e
  | .ok bytes => .ok ((keccak256 bytes).drop 12)

/-- `keccak256` string overload (NitroSecp256k1 revision): the input string
is validated as bare hex and DECODED, and the decoded bytes are hashed. -/
def NitroSecp256k1.keccak256String (data : List Char) : Res (List Nat) :=
  match validateHexString data with
  | .err e => .err e
  | .ok _ => .ok (keccak256 (hexDecodeChars data))

/-- `keccak256FromBytes` (NitroSecp256k1 revision, via keccak-tiny). -/
def NitroSecp256k1.keccak256FromBytes (data : List Nat) : List Nat :=
  keccak256 data

/-! ## TypeScript layer (src/src/utils.ts, src/src/index.tsx)

JavaScript numbers passed in `number[]` inputs are modelled as integers
(`Int`); bigint private keys as `Int`. -/

/-- `bigintPrivateKeyToBytes` from utils.ts: range checks, then the
big-endian extraction loop into a fresh 32-byte array. -/
def bigintPrivateKeyToBytes (num : Int) : Res (List Nat) :=
  if num < 0 then .err .negativeScalar
  else if num = 0 then .err .zeroScalar
  else if (Nsec : Int) ≤ num then .err .scalarOutOfRange
  else .ok (natToBEBytes 32 num.toNat)

/-- Modelled from ECMAScript `ToUint8`: storing an integer-valued number
into a `Uint8Array` keeps its value modulo 256. -/
def byteWrap (v : Int) : Nat :=
  (v % 256).toNat

/-- `numberArrayToUint8Array` from utils.ts: in non-production builds every
element must be an integer in 0..255; the `Uint8Array` constructor then
wraps each element modulo 256 (a no-op for validated input). -/
def numberArrayToUint8Array (production : Bool) (arr : List Int) :
    Res (List Nat) :=
  if production = false then
    if arr.all (fun v => decide (0 ≤ v) && decide (v ≤ 255)) then
      .ok (arr.map byteWrap)
    else .err .invalidByteValue
  else .ok (arr.map byteWrap)

/-- The `number[]` branch of `keccak256` in index.tsx (NativeUtils
revision): convert through `numberArrayToUint8Array`, then hash. -/
def keccak256NumberArray (production : Bool) (arr : List Int) :
    Res (List Nat) :=
  match numberArrayToUint8Array production arr with
  | .err e => .err e
  | .ok bytes => .ok (NativeUtils.keccak256FromBytes bytes)

/-- UTF-8 encoding of one code point (`TextEncoder`). -/
def utf8EncodeChar (c : Nat) : List Nat :=
  if c < 0x80 then [c]
  else if c < 0x800 then [0xC0 ||| (c >>> 6), 0x80 ||| (c &&& 0x3F)]
  else if c < 0x10000 then
    [0xE0 ||| (c >>> 12), 0x80 ||| ((c >>> 6) &&& 0x3F), 0x80 ||| (c &&& 0x3F)]
  else
    [0xF0 ||| (c >>> 18), 0x80 ||| ((c >>> 12) &&& 0x3F),
     0x80 ||| ((c >>> 6) &&& 0x3F), 0x80 ||| (c &&& 0x3F)]

/-- `TextEncoder().encode` over the characters of a string. -/
def utf8Encode (s : List Char) : List Nat :=
  (s.map fun c => utf8EncodeChar c.toNat).flatten

/-- The string branch of `keccak256` in the LATER index.tsx revision
(NativeUtils): the string is UTF-8 encoded (noble behaviour) and the
encoded bytes hashed; no hex interpretation and no failure. -/
def NativeUtils.keccak256StringUtf8 (data : List Char) : List Nat :=
  NativeUtils.keccak256FromBytes (utf8Encode data)

/-- `getPublicKeyEd25519` from index.tsx plus the native
`getPublicKeyEd25519(FromBytes)`: hex input must be 64 chars, byte input 32
bytes; the `_compressed` parameter is accepted but never read. -/
def getPublicKeyEd25519 (ed : List Nat → List Nat)
    (privateKey : List Char ⊕ List Nat) (_compressed : Bool) :
    Res (List Nat) :=
  match privateKey with
  | .inl s =>
    if s.length ≠ 64 then .err .ed25519HexLen
    else
      match hexToBytes s 32 with
      | .err e => .err e
      | .ok seed => .ok (NativeUtils.generateEd25519PublicKeyFromBytes ed seed)
  | .inr b =>
    if b.length ≠ 32 then .err .ed25519BytesLen
    else .ok (NativeUtils.generateEd25519PublicKeyFromBytes ed b)

/-! ## Concrete library instances for witnesses -/

/-- A toy curve library satisfying the per-theorem contract hypotheses: it
serializes to well-formed 33/65-byte encodings and parses SEC1-prefixed
inputs. -/
def toyLib : CurveLib where
  pointOf := fun sk => ⟨sk ++ sk⟩
  serialize := fun pk c => some (if c then 2 :: pk.data.take 32 else 4 :: pk.data)
  parseValid := fun b =>
    if b.getD 0 0 = 2 ∨ b.getD 0 0 = 3 then some ⟨b.drop 1 ++ b.drop 1⟩
    else if b.getD 0 0 = 4 then some ⟨b.drop 1⟩
    else none

/-- A misbehaving library whose serialize writes 10 bytes whatever was
requested: used to exhibit the missing length check in the NitroSecp256k1
revision. -/
def badLib : CurveLib where
  pointOf := fun sk => ⟨sk⟩
  serialize := fun _ _ => some (List.replicate 10 0xAB)
  parseValid := fun _ => none

/-! ## Claim theorems -/

/-- C1: For every 64-byte raw public key input, addressFromPublicKey /
pubToAddress (in both source revisions) returns exactly the last 20 bytes
(bytes 12..32) of the 32-byte Keccak-256 digest of those 64 bytes; the
embedded functions are pure, so the result is determined by the input
alone. -/
theorem C1_address_from_raw64 (lib : CurveLib) (pubKey : List Nat)
    (sanitize : Bool) (h : pubKey.length = 64) :
    NativeUtils.pubToAddress lib pubKey sanitize
        = .ok ((keccak256 pubKey).drop 12)
      ∧ NitroSecp256k1.pubToAddress lib pubKey sanitize
        = .ok ((keccak256 pubKey).drop 12)
      ∧ (keccak256 pubKey).length = 32
      ∧ ((keccak256 pubKey).drop 12).length = 20 := by
  refine ⟨?_, ?_, keccak256_length pubKey, ?_⟩
  · simp [NativeUtils.pubToAddress, h]
  · simp [NitroSecp256k1.pubToAddress, h]
  · simp [List.length_drop, keccak256_length]

/-- Witness for C1 at the all-zero 64-byte key. -/
theorem C1_address_from_raw64_witness :
    NativeUtils.pubToAddress toyLib (List.replicate 64 0) false
        = .ok ((keccak256 (List.replicate 64 0)).drop 12)
      ∧ ((keccak256 (List.replicate 64 0)).drop 12).length = 20 :=
  ⟨(C1_address_from_raw64 toyLib (List.replicate 64 0) false (by simp)).1,
   (C1_address_from_raw64 toyLib (List.replicate 64 0) false (by simp)).2.2.2⟩

/-- C2 counterexample: in the NativeUtils revision the all-zero scalar and
the scalar N both fail through the single `secp256k1_ec_seckey_verify`
throw site with the one generic "Private key is invalid" error, which is
neither the ZeroScalar nor the ScalarOutOfRange kind the claim asserts. -/
theorem C2_scalar_range_boundary_counterexample :
    NativeUtils.generatePublicKeyFromBytes toyLib (List.replicate 32 0) true
        = .err .privateKeyInvalid
      ∧ NativeUtils.generatePublicKeyFromBytes toyLib SECP256K1_N true
        = .err .privateKeyInvalid
      ∧ Err.privateKeyInvalid ≠ Err.zeroScalar
      ∧ Err.privateKeyInvalid ≠ Err.scalarOutOfRange := by
  decide

/-- C2 amended: derivation on the scalar `N-1` succeeds in both revisions,
and in both the scalar validation runs before point derivation; but only
the NitroSecp256k1 revision distinguishes the failures (ZeroScalar for the
all-zero buffer, ScalarOutOfRange for `N`, via validatePrivateKeyScalar) —
in the NativeUtils revision both failures surface as the single generic
"Private key is invalid" error of the libsecp256k1 seckey check. -/
theorem C2_scalar_range_boundary (lib : CurveLib)
    (hser : ∀ p c, (lib.serialize p c).isSome = true)
    (hserNm1 : ∀ c : Bool, ∃ out,
      lib.serialize (lib.pointOf (natToBEBytes 32 (Nsec - 1))) c = some out
        ∧ out.length = (if c then 33 else 65))
    (c : Bool) :
    (NitroSecp256k1.generatePublicKeyFromBytes lib
        (natToBEBytes 32 (Nsec - 1)) c).isOk = true
      ∧ NitroSecp256k1.generatePublicKeyFromBytes lib SECP256K1_N c
        = .err .scalarOutOfRange
      ∧ NitroSecp256k1.generatePublicKeyFromBytes lib (List.replicate 32 0) c
        = .err .zeroScalar
      ∧ (∀ sk e, NitroSecp256k1.validatePrivateKeyScalar sk = .err e →
          NitroSecp256k1.generatePublicKeyFromBytes lib sk c = .err e)
      ∧ (NativeUtils.generatePublicKeyFromBytes lib
          (natToBEBytes 32 (Nsec - 1)) c).isOk = true
      ∧ NativeUtils.generatePublicKeyFromBytes lib SECP256K1_N c
        = .err .privateKeyInvalid
      ∧ NativeUtils.generatePublicKeyFromBytes lib (List.replicate 32 0) c
        = .err .privateKeyInvalid
      ∧ (∀ sk, seckeyVerify sk = false →
          NativeUtils.generatePublicKeyFromBytes lib sk c
            = .err .privateKeyInvalid) := by
  have hgenNU : ∀ sk, seckeyVerify sk = false →
      NativeUtils.generatePublicKeyFromBytes lib sk c = .err .privateKeyInvalid := by
    intro sk h
    simp [NativeUtils.generatePublicKeyFromBytes, h]
  refine ⟨?_, ?_, ?_, ?_, ?_, ?_, ?_, hgenNU⟩
  · have hval : NitroSecp256k1.validatePrivateKeyScalar (natToBEBytes 32 (Nsec - 1))
        = .ok () := by decide
    have hver : seckeyVerify (natToBEBytes 32 (Nsec - 1)) = true := by decide
    obtain ⟨out, hout⟩ := Option.isSome_iff_exists.mp
      (hser (lib.pointOf (natToBEBytes 32 (Nsec - 1))) c)
    simp [NitroSecp256k1.generatePublicKeyFromBytes, hval, secpCreate, hver,
      hout, Res.isOk]
  · have hval : NitroSecp256k1.validatePrivateKeyScalar SECP256K1_N
        = .err .scalarOutOfRange := by decide
    simp [NitroSecp256k1.generatePublicKeyFromBytes, hval]
  · have hval : NitroSecp256k1.validatePrivateKeyScalar (List.replicate 32 0)
        = .err .zeroScalar := by decide
    simp only [NitroSecp256k1.generatePublicKeyFromBytes, hval]
  · intro sk e h
    simp [NitroSecp256k1.generatePublicKeyFromBytes, h]
  · have hver : seckeyVerify (natToBEBytes 32 (Nsec - 1)) = true := by decide
    obtain ⟨out, hout, hlen⟩ := hserNm1 c
    simp [NativeUtils.generatePublicKeyFromBytes, hver, secpCreate,
      NativeUtils.serializeSecp256k1PubkeyChecked, hout, hlen, Res.isOk]
  · exact hgenNU SECP256K1_N (by decide)
  · exact hgenNU (List.replicate 32 0) (by decide)

/-- Witness for the amended C2 with the toy library. -/
theorem C2_scalar_range_boundary_witness :
    (NitroSecp256k1.generatePublicKeyFromBytes toyLib
        (natToBEBytes 32 (Nsec - 1)) true).isOk = true
      ∧ NitroSecp256k1.generatePublicKeyFromBytes toyLib SECP256K1_N true
        = .err .scalarOutOfRange
      ∧ NitroSecp256k1.generatePublicKeyFromBytes toyLib (List.replicate 32 0) true
        = .err .zeroScalar
      ∧ (NativeUtils.generatePublicKeyFromBytes toyLib
          (natToBEBytes 32 (Nsec - 1)) true).isOk = true
      ∧ NativeUtils.generatePublicKeyFromBytes toyLib SECP256K1_N true
        = .err .privateKeyInvalid
      ∧ NativeUtils.generatePublicKeyFromBytes toyLib (List.replicate 32 0) true
        = .err .privateKeyInvalid :=
  have h := C2_scalar_range_boundary toyLib (fun _ _ => rfl)
    (by intro c; cases c <;> exact ⟨_, rfl, by decide⟩) true
  ⟨h.1, h.2.1, h.2.2.1, h.2.2.2.2.1, h.2.2.2.2.2.1, h.2.2.2.2.2.2.1⟩

/-- C3 counterexample: with the sanitize flag true, a 1-byte public key
fails pubToAddress with the "Invalid public key format" error (the
InvalidEncoding kind), not the "Expected pubKey to be of length 64" error
(the LengthMismatch kind) the claim requires for both flag values. -/
theorem C3_length_rejection_counterexample :
    NativeUtils.pubToAddress toyLib [0] true = .err .invalidPublicKeyFormat
      ∧ NativeUtils.pubToAddress toyLib [0] true ≠ .err .expectedLength64 := by
  decide

/-- C3 amended: public keys of length 1, 31, 32, 63, 66 or 100 bytes always
fail pubToAddress in both revisions; with the sanitize flag false the error
is the LengthMismatch kind ("Expected pubKey to be of length 64"), with the
flag true it is the InvalidEncoding kind ("Invalid public key format")
raised when the curve library rejects the unrecognized length. -/
theorem C3_length_rejection_amended (lib : CurveLib) (pubKey : List Nat)
    (h : pubKey.length = 1 ∨ pubKey.length = 31 ∨ pubKey.length = 32 ∨
         pubKey.length = 63 ∨ pubKey.length = 66 ∨ pubKey.length = 100) :
    NativeUtils.pubToAddress lib pubKey false = .err .expectedLength64
      ∧ NitroSecp256k1.pubToAddress lib pubKey false = .err .expectedLength64
      ∧ NativeUtils.pubToAddress lib pubKey true = .err .invalidPublicKeyFormat
      ∧ NitroSecp256k1.pubToAddress lib pubKey true
        = .err .invalidPublicKeyFormat := by
  have h64 : pubKey.length ≠ 64 := by rcases h with h | h | h | h | h | h <;> simp [h]
  have h33 : pubKey.length ≠ 33 := by rcases h with h | h | h | h | h | h <;> simp [h]
  have h65 : pubKey.length ≠ 65 := by rcases h with h | h | h | h | h | h <;> simp [h]
  refine ⟨?_, ?_, ?_, ?_⟩
  · simp [NativeUtils.pubToAddress, h64]
  · simp [NitroSecp256k1.pubToAddress, h64]
  · simp [NativeUtils.pubToAddress, secpParse, h64, h33, h65]
  · simp [NitroSecp256k1.pubToAddress, secpParse, h64, h33, h65]

/-- Witness for the amended C3 at a 31-byte input. -/
theorem C3_length_rejection_amended_witness :
    NativeUtils.pubToAddress toyLib (List.replicate 31 7) false
        = .err .expectedLength64
      ∧ NitroSecp256k1.pubToAddress toyLib (List.replicate 31 7) false
        = .err .expectedLength64
      ∧ NativeUtils.pubToAddress toyLib (List.replicate 31 7) true
        = .err .invalidPublicKeyFormat
      ∧ NitroSecp256k1.pubToAddress toyLib (List.replicate 31 7) true
        = .err .invalidPublicKeyFormat :=
  C3_length_rejection_amended toyLib (List.replicate 31 7) (by simp)

/-- C4: with the sanitize flag true, a 33- or 65-byte public key that the
curve library parses is re-serialized in the uncompressed 65-byte form
whose 1-byte 0x04 prefix is stripped, and the remaining 64-byte raw form is
what gets hashed; a 33-byte input the library cannot parse fails with the
InvalidEncoding error rather than being coerced. -/
theorem C4_sanitize_nonraw :
    (∀ (lib : CurveLib) (pubKey : List Nat) (pk : Secp256k1Pubkey)
       (out : List Nat),
       (pubKey.length = 33 ∨ pubKey.length = 65) →
       lib.parseValid pubKey = some pk →
       lib.serialize pk false = some out →
       out.length = 65 →
       out.head? = some 4 →
       NativeUtils.pubToAddress lib pubKey true
           = .ok ((keccak256 (out.drop 1)).drop 12)
         ∧ out = 4 :: out.drop 1
         ∧ (out.drop 1).length = 64)
    ∧ (∀ (lib : CurveLib) (pubKey : List Nat),
       pubKey.length = 33 → lib.parseValid pubKey = none →
       NativeUtils.pubToAddress lib pubKey true
           = .err .invalidPublicKeyFormat) := by
  constructor
  · intro lib pubKey pk out hlen hparse hser hout h4
    have h64 : pubKey.length ≠ 64 := by rcases hlen with h | h <;> simp [h]
    have hp : secpParse lib pubKey = some pk := by
      simp [secpParse, hlen, hparse]
    refine ⟨?_, ?_, ?_⟩
    · simp [NativeUtils.pubToAddress, h64, hp,
        NativeUtils.serializeSecp256k1PubkeyChecked, hser, hout]
    · cases out with
      | nil => simp at h4
      | cons a t => simp at h4; simp [h4]
    · simp [List.length_drop, hout]
  · intro lib pubKey hlen hparse
    have h64 : pubKey.length ≠ 64 := by simp [hlen]
    have hp : secpParse lib pubKey = none := by
      simp [secpParse, hlen, hparse]
    simp [NativeUtils.pubToAddress, h64, hp]

/-- Witness for C4: a parsable 33-byte input and an unparsable one, with
the toy library. -/
theorem C4_sanitize_nonraw_witness :
    NativeUtils.pubToAddress toyLib (2 :: List.replicate 32 9) true
        = .ok ((keccak256
            ((4 :: (List.replicate 32 9 ++ List.replicate 32 9)).drop 1)).drop 12)
      ∧ NativeUtils.pubToAddress toyLib (0 :: List.replicate 32 0) true
        = .err .invalidPublicKeyFormat :=
  ⟨(C4_sanitize_nonraw.1 toyLib (2 :: List.replicate 32 9)
      ⟨List.replicate 32 9 ++ List.replicate 32 9⟩
      (4 :: (List.replicate 32 9 ++ List.replicate 32 9))
      (Or.inl (by simp)) (by decide) rfl (by simp) rfl).1,
   C4_sanitize_nonraw.2 toyLib (0 :: List.replicate 32 0) (by simp) (by decide)⟩

/-- C5 counterexample: in the NitroSecp256k1 revision, a serialization that
writes 10 bytes instead of the requested 33 is NOT rejected: key derivation
returns ok (with the unwritten buffer tail) instead of raising the
SerializationLengthMismatch error the claim requires for every
serialization. -/
theorem C5_serialization_check_counterexample :
    NitroSecp256k1.generatePublicKeyFromBytes badLib (natToBEBytes 32 1) true
        = .ok (List.replicate 10 0xAB ++ List.replicate 23 0)
      ∧ badLib.serialize (badLib.pointOf (natToBEBytes 32 1)) true
        = some (List.replicate 10 0xAB)
      ∧ (List.replicate 10 0xAB).length ≠ 33 := by
  decide

/-- Any buffer the checked serializer returns has the expected length. -/
theorem serializeChecked_ok_length (lib : CurveLib) (pk : Secp256k1Pubkey)
    (expectedLen : Nat) (c : Bool) (res : List Nat)
    (h : NativeUtils.serializeSecp256k1PubkeyChecked lib pk expectedLen c
      = .ok res) : res.length = expectedLen := by
  rw [NativeUtils.serializeSecp256k1PubkeyChecked] at h
  cases hser : lib.serialize pk c with
  | none => rw [hser] at h; exact absurd h (by simp)
  | some out =>
    rw [hser] at h
    by_cases hlen : out.length = expectedLen
    · simp [hlen] at h
      subst h
      exact hlen
    · simp [hlen] at h

/-- C5 amended: in the NativeUtils revision every serialization goes
through the checked wrapper, which raises the SerializationLengthMismatch
error whenever the byte count the library wrote differs from the requested
form's expected length (33 compressed, 65 uncompressed), and only returns
buffers of exactly the expected length; the NitroSecp256k1 revision checks
only the library's success flag and performs no such length comparison. -/
theorem C5_serialization_check_amended :
    (∀ (lib : CurveLib) (pk : Secp256k1Pubkey) (expectedLen : Nat) (c : Bool)
       (out : List Nat),
       lib.serialize pk c = some out → out.length ≠ expectedLen →
       NativeUtils.serializeSecp256k1PubkeyChecked lib pk expectedLen c
           = .err .serializationLengthMismatch)
    ∧ (∀ (lib : CurveLib) (pk : Secp256k1Pubkey) (expectedLen : Nat) (c : Bool)
       (res : List Nat),
       NativeUtils.serializeSecp256k1PubkeyChecked lib pk expectedLen c
           = .ok res → res.length = expectedLen)
    ∧ (∀ (lib : CurveLib) (sk : List Nat) (c : Bool) (res : List Nat),
       NativeUtils.generatePublicKeyFromBytes lib sk c = .ok res →
       res.length = (if c then 33 else 65)) := by
  refine ⟨?_, ?_, ?_⟩
  · intro lib pk expectedLen c out hser hne
    simp [NativeUtils.serializeSecp256k1PubkeyChecked, hser, hne]
  · intro lib pk expectedLen c res h
    exact serializeChecked_ok_length lib pk expectedLen c res h
  · intro lib sk c res h
    rw [NativeUtils.generatePublicKeyFromBytes] at h
    split at h
    · exact absurd h (by simp)
    · split at h
      · exact absurd h (by simp)
      · exact serializeChecked_ok_length _ _ _ _ _ h

/-- Witness for the amended C5: the misbehaving library is caught by the
checked wrapper. -/
theorem C5_serialization_check_amended_witness :
    NativeUtils.serializeSecp256k1PubkeyChecked badLib ⟨[1]⟩ 33 true
        = .err .serializationLengthMismatch
      ∧ (NativeUtils.serializeSecp256k1PubkeyChecked badLib ⟨[1]⟩ 10 true
           = .ok (List.replicate 10 0xAB) →
         (List.replicate 10 0xAB).length = 10) :=
  ⟨C5_serialization_check_amended.1 badLib ⟨[1]⟩ 33 true
      (List.replicate 10 0xAB) rfl (by decide),
   C5_serialization_check_amended.2.1 badLib ⟨[1]⟩ 10 true
      (List.replicate 10 0xAB)⟩

/-- C6: bigint private-key normalization rejects negative values with the
NegativeScalar error, zero with the ZeroScalar error, values `>= N` with
the ScalarOutOfRange error, and converts every value in `[1, N-1]` to a
32-byte big-endian zero-left-padded buffer denoting the same integer. -/
theorem C6_bigint_normalization (num : Int) :
    (num < 0 → bigintPrivateKeyToBytes num = .err .negativeScalar)
      ∧ (num = 0 → bigintPrivateKeyToBytes num = .err .zeroScalar)
      ∧ (0 ≤ num → (Nsec : Int) ≤ num →
          bigintPrivateKeyToBytes num = .err .scalarOutOfRange)
      ∧ (1 ≤ num → num < (Nsec : Int) →
          ∃ bytes, bigintPrivateKeyToBytes num = .ok bytes
            ∧ bytes.length = 32 ∧ (beToNat bytes : Int) = num) := by
  refine ⟨?_, ?_, ?_, ?_⟩
  · intro h; simp [bigintPrivateKeyToBytes, h]
  · intro h; simp [bigintPrivateKeyToBytes, h]
  · intro h0 hN
    have h1 : ¬ num < 0 := by omega
    have h2 : num ≠ 0 := by
      intro he
      rw [he] at hN
      have : (0 : Int) < Nsec := by norm_num [Nsec]
      omega
    simp [bigintPrivateKeyToBytes, h1, h2, hN]
  · intro h1 hN
    have hneg : ¬ num < 0 := by omega
    have hz : num ≠ 0 := by omega
    have hr : ¬ (Nsec : Int) ≤ num := by omega
    refine ⟨natToBEBytes 32 num.toNat, ?_, natToBEBytes_length _ _, ?_⟩
    · simp [bigintPrivateKeyToBytes, hneg, hz, hr]
    · rw [beToNat_natToBEBytes]
      have htn : (num.toNat : Int) = num := Int.toNat_of_nonneg (by omega)
      have hlt : num.toNat < Nsec := by omega
      have hbound : Nsec < 2 ^ (8 * 32) := by norm_num [Nsec]
      rw [Nat.mod_eq_of_lt (lt_trans hlt hbound)]
      exact htn

/-- Witness for C6 at the private key 5 (and at the boundary errors). -/
theorem C6_bigint_normalization_witness :
    (∃ bytes, bigintPrivateKeyToBytes 5 = .ok bytes
        ∧ bytes.length = 32 ∧ (beToNat bytes : Int) = 5)
      ∧ bigintPrivateKeyToBytes (-3) = .err .negativeScalar
      ∧ bigintPrivateKeyToBytes 0 = .err .zeroScalar
      ∧ bigintPrivateKeyToBytes (Nsec : Int) = .err .scalarOutOfRange :=
  ⟨(C6_bigint_normalization 5).2.2.2 (by norm_num) (by norm_num [Nsec]),
   (C6_bigint_normalization (-3)).1 (by norm_num),
   (C6_bigint_normalization 0).2.1 rfl,
   (C6_bigint_normalization (Nsec : Int)).2.2.1 (by norm_num [Nsec]) le_rfl⟩

/-- A string with an even length and a non-hex character fails hex
validation with the invalid-character error. -/
theorem validateHexString_bad_char (s : List Char) (h2 : s.length % 2 = 0)
    (ch : Char) (hmem : ch ∈ s) (hbad : isValidHexChar ch = false) :
    validateHexString s = .err .hexInvalidChar := by
  have hall : s.all isValidHexChar = false := by
    by_contra hA
    rw [Bool.not_eq_false] at hA
    have := List.all_eq_true.mp hA ch hmem
    rw [hbad] at this
    exact Bool.false_ne_true this
  simp [validateHexString, h2, hall]

/-- C7: hex normalization never strips a 0x/0X prefix: every hex-string
private key beginning with 0x or 0X is rejected by toPublicKey (x/X is not
a hex digit); more generally validateHexString rejects every odd-length
string and every string containing a non-hex-digit character. -/
theorem C7_hex_prefix_rejection (lib : CurveLib) (c : Bool) (s : List Char) :
    ((∃ rest, s = '0' :: 'x' :: rest ∨ s = '0' :: 'X' :: rest) →
        ∃ e, NativeUtils.toPublicKey lib s c = .err e)
      ∧ (s.length % 2 = 1 → validateHexString s = .err .hexOddLength)
      ∧ (s.length % 2 = 0 → (∃ ch ∈ s, isValidHexChar ch = false) →
          validateHexString s = .err .hexInvalidChar) := by
  refine ⟨?_, ?_, ?_⟩
  · rintro ⟨rest, h | h⟩ <;> subst h
    · by_cases hl : ('0' :: 'x' :: rest : List Char).length = 64
      · have hv := validateHexString_bad_char ('0' :: 'x' :: rest)
          (by rw [hl]) 'x' (by simp) (by decide)
        exact ⟨.hexInvalidChar,
          by simp [NativeUtils.toPublicKey, hexToBytes, hl, hv]⟩
      · exact ⟨.privKeyHexLen64, by rw [NativeUtils.toPublicKey, if_pos hl]⟩
    · by_cases hl : ('0' :: 'X' :: rest : List Char).length = 64
      · have hv := validateHexString_bad_char ('0' :: 'X' :: rest)
          (by rw [hl]) 'X' (by simp) (by decide)
        exact ⟨.hexInvalidChar,
          by simp [NativeUtils.toPublicKey, hexToBytes, hl, hv]⟩
      · exact ⟨.privKeyHexLen64, by rw [NativeUtils.toPublicKey, if_pos hl]⟩
  · intro h
    simp [validateHexString, h]
  · rintro h2 ⟨ch, hmem, hbad⟩
    exact validateHexString_bad_char s h2 ch hmem hbad

/-- Witness for C7: the string "0x" is rejected by toPublicKey, "a" by odd
length, "0x" by the invalid character x. -/
theorem C7_hex_prefix_rejection_witness :
    (∃ e, NativeUtils.toPublicKey toyLib ['0', 'x'] true = .err e)
      ∧ validateHexString ['a'] = .err .hexOddLength
      ∧ validateHexString ['0', 'x'] = .err .hexInvalidChar :=
  ⟨(C7_hex_prefix_rejection toyLib true ['0', 'x']).1 ⟨[], Or.inl rfl⟩,
   (C7_hex_prefix_rejection toyLib true ['a']).2.1 rfl,
   (C7_hex_prefix_rejection toyLib true ['0', 'x']).2.2 rfl
     ⟨'x', by simp, by decide⟩⟩

/-- C8: Ed25519 derivation accepts every 32-byte seed (no range check) and
returns a 32-byte public key; the compressed parameter is accepted but has
no effect on the result.  The embedded function is pure, so equal seeds
give equal keys. -/
theorem C8_ed25519_any_seed (ed : List Nat → List Nat) (seed : List Nat)
    (c c1 c2 : Bool) :
    getPublicKeyEd25519 ed (.inr seed) c1 = getPublicKeyEd25519 ed (.inr seed) c2
      ∧ (seed.length = 32 →
          ∃ r, getPublicKeyEd25519 ed (.inr seed) c = .ok r ∧ r.length = 32) := by
  refine ⟨rfl, fun h => ⟨padTo 32 (ed seed), ?_, padTo_length _ _⟩⟩
  simp [getPublicKeyEd25519, NativeUtils.generateEd25519PublicKeyFromBytes, h]

/-- Witness for C8 at the all-zero and all-0xFF seeds. -/
theorem C8_ed25519_any_seed_witness :
    (∃ r, getPublicKeyEd25519 (fun s => s) (.inr (List.replicate 32 0)) true
        = .ok r ∧ r.length = 32)
      ∧ (∃ r, getPublicKeyEd25519 (fun s => s) (.inr (List.replicate 32 255)) false
          = .ok r ∧ r.length = 32)
      ∧ getPublicKeyEd25519 (fun s => s) (.inr (List.replicate 32 0)) true
        = getPublicKeyEd25519 (fun s => s) (.inr (List.replicate 32 0)) false :=
  ⟨(C8_ed25519_any_seed (fun s => s) (List.replicate 32 0) true true true).2
      (by simp),
   (C8_ed25519_any_seed (fun s => s) (List.replicate 32 255) false true true).2
      (by simp),
   (C8_ed25519_any_seed (fun s => s) (List.replicate 32 0) true true false).1⟩

set_option maxRecDepth 100000 in
/-- C9 counterexample: the two revisions of the string overload of
keccak256 are NOT equivalent on hex-looking inputs: on "ab" the hex
revision hashes the byte 0xAB while the UTF-8 revision hashes the bytes
0x61 0x62, and the digests differ. -/
theorem C9_string_revisions_counterexample :
    NitroSecp256k1.keccak256String ['a', 'b']
      ≠ .ok (NativeUtils.keccak256StringUtf8 ['a', 'b']) := by
  decide

/-- C9 amended: the hex revision of the string overload does return, on
every valid even-length hex string, the same 32-byte digest as the bytes
entry point applied to the decoded buffer; but the later UTF-8 revision is
a different function (see the counterexample), so the two revisions are not
equivalent on such inputs. -/
theorem C9_hex_revision_amended (s : List Char)
    (h : validateHexString s = .ok ()) :
    NitroSecp256k1.keccak256String s
      = .ok (NitroSecp256k1.keccak256FromBytes (hexDecodeChars s)) := by
  simp [NitroSecp256k1.keccak256String, h, NitroSecp256k1.keccak256FromBytes]

/-- Witness for the amended C9 at the input "ab". -/
theorem C9_hex_revision_amended_witness :
    NitroSecp256k1.keccak256String ['a', 'b']
      = .ok (NitroSecp256k1.keccak256FromBytes (hexDecodeChars ['a', 'b'])) :=
  C9_hex_revision_amended ['a', 'b'] (by decide)

/-- C10: the number[] path of keccak256 validates elements only outside
production: in production every element is silently wrapped modulo 256 by
the Uint8Array construction and the wrapped bytes are hashed without error,
while outside production an out-of-range element raises the invalid-byte
error. -/
theorem C10_number_array_wrap (arr : List Int) :
    keccak256NumberArray true arr = .ok (keccak256 (arr.map byteWrap))
      ∧ ((∃ v ∈ arr, v < 0 ∨ 255 < v) →
          keccak256NumberArray false arr = .err .invalidByteValue) := by
  constructor
  · simp [keccak256NumberArray, numberArrayToUint8Array,
      NativeUtils.keccak256FromBytes]
  · rintro ⟨v, hmem, hv⟩
    have hall : arr.all (fun v => decide (0 ≤ v) && decide (v ≤ 255)) = false := by
      by_contra hA
      rw [Bool.not_eq_false] at hA
      have := List.all_eq_true.mp hA v hmem
      simp at this
      omega
    simp [keccak256NumberArray, numberArrayToUint8Array, hall]

/-- Witness for C10 at the array [300, -1]: in production it hashes the
wrapped bytes [44, 255]; outside production it is rejected. -/
theorem C10_number_array_wrap_witness :
    keccak256NumberArray true [300, -1]
        = .ok (keccak256 (([300, -1] : List Int).map byteWrap))
      ∧ keccak256NumberArray false [300, -1] = .err .invalidByteValue :=
  ⟨(C10_number_array_wrap [300, -1]).1,
   (C10_number_array_wrap [300, -1]).2 ⟨300, by simp, by norm_num⟩⟩
